import Mathlib

/-!
# Verification of the Proyecto-google financial reporting core

A shallow embedding, in Lean 4, of the decision logic of the repository:

* `financial_api.py` — ticker normalization (`normalizar_ticker`), provider
  fetch wrappers, Markdown report generation (`generate_markdown_report`),
  per-ticker aggregation (`procesar_ticker`), per-client fan-out
  (`procesar_cliente`) and the production entry point (`main`);
* `api_youtube.py` — search-text cleanup (`limpiar_texto_busqueda`), the
  single-query video locator (`buscar_video_reciente_en_canal`) and the
  ordered fallback variant (`buscar_video_reciente_con_fallback`);
* `database.py` — the `Cliente`/`Portfolio`/`Asset` data model and the
  ticker enumeration helpers.

Python strings are modelled as Lean `String`s; the Python `str.upper`,
`str.lower`, `str.strip`, `str.isalnum` and whitespace operations are
modelled on the ASCII fragment (tickers, filenames and search queries in
this repository are ASCII).  Network calls are modelled as oracles: each
provider response is a value of a small inductive type covering the shapes
the source code branches on (transport error, non-list JSON, list payload,
missing key), and the `pandas` operations the code performs on those
payloads are modelled by their effect on the column set and row count of
the resulting frame.  Python exceptions are modelled with `Except`:
operations that can raise return `Except String α`, and `try/except`
blocks in the source become `match` on the `Except` value.
-/

/-! ## Python string primitives (ASCII model) -/

/-- Python `str.isspace` / `str.split()` whitespace, ASCII fragment. -/
def pyIsSpaceChar (c : Char) : Bool :=
  c = ' ' || c = '\t' || c = '\n' || c = '\r' || c = '\x0b' || c = '\x0c'

/-- Python `str.upper` on one character (ASCII fragment). -/
def pyToUpperChar (c : Char) : Char :=
  if 97 ≤ c.toNat ∧ c.toNat ≤ 122 then Char.ofNat (c.toNat - 32) else c

/-- Python `str.lower` on one character (ASCII fragment). -/
def pyToLowerChar (c : Char) : Char :=
  if 65 ≤ c.toNat ∧ c.toNat ≤ 90 then Char.ofNat (c.toNat + 32) else c

/-- Python `str.strip()` on a character list: drop whitespace at both ends. -/
def pyStripL (l : List Char) : List Char :=
  ((l.dropWhile pyIsSpaceChar).reverse.dropWhile pyIsSpaceChar).reverse

/-- Python `str.upper`. -/
def pyUpper (s : String) : String := ⟨s.data.map pyToUpperChar⟩

/-- Python `str.lower`. -/
def pyLower (s : String) : String := ⟨s.data.map pyToLowerChar⟩

/-- Python `str.strip()`. -/
def pyStrip (s : String) : String := ⟨pyStripL s.data⟩

/-- Python `str.endswith`. -/
def pyEndsWith (s suffix : String) : Bool :=
  suffix.data.isSuffixOf s.data

/-- One pass of Python `str.replace(pat, '')`: remove every non-overlapping
occurrence of `pat`, scanning left to right.  Structured with explicit fuel
(`fuel ≥ l.length` always holds at the call site) so that the definition is
structurally recursive and evaluates by kernel reduction. -/
def replaceAllFuel (pat : List Char) : Nat → List Char → List Char
  | _, [] => []
  | 0, l => l
  | fuel + 1, c :: rest =>
    if pat ≠ [] ∧ pat.isPrefixOf (c :: rest) then
      replaceAllFuel pat fuel ((c :: rest).drop pat.length)
    else
      c :: replaceAllFuel pat fuel rest

/-- Python `s.replace(pat, '')` (the source only ever replaces with `''`). -/
def pyReplaceEmpty (s pat : String) : String :=
  ⟨replaceAllFuel pat.data s.data.length s.data⟩

/-! ## Ticker normalization (`financial_api.normalizar_ticker`) -/

/-- `crypto_map` from `financial_api.normalizar_ticker`. -/
def crypto_map : List (String × String) :=
  [("BTCUSD", "BTC-USD"), ("ETHUSD", "ETH-USD"), ("ADAUSD", "ADA-USD"),
   ("SOLUSD", "SOL-USD"), ("DOTUSD", "DOT-USD"), ("DOGEUSD", "DOGE-USD"),
   ("MATICUSD", "MATIC-USD"), ("XRPUSD", "XRP-USD"), ("LINKUSD", "LINK-USD"),
   ("LTCUSD", "LTC-USD"), ("UNIUSD", "UNI-USD"), ("XLMUSD", "XLM-USD")]

/-- `commodity_map` from `financial_api.normalizar_ticker`. -/
def commodity_map : List (String × String) :=
  [("PAXGUSD", "PAXG-USD"), ("GOLDUSD", "GOLD-USD"),
   ("SILVERUSD", "SILVER-USD"), ("XAUUSD", "GLD"), ("XAGUSD", "SLV")]

/-- `market_suffixes` from `financial_api.normalizar_ticker`, in the source
dictionary's insertion order (the order the loop iterates in). -/
def market_suffixes : List String :=
  [".F", ".DE", ".L", ".PA", ".AS", ".MI", ".MC", ".SW", ".TO", ".AX", ".HK", ".T"]

/-- `specific_map` from `financial_api.normalizar_ticker`. -/
def specific_map : List (String × String) :=
  [("NVD.F", "NVDA"), ("NVDA.F", "NVDA"), ("GOOGL.F", "GOOGL"),
   ("GOOG.F", "GOOGL"), ("AAPL.F", "AAPL"), ("MSFT.F", "MSFT"),
   ("AMZN.F", "AMZN"), ("TSLA.F", "TSLA"), ("META.F", "META"),
   ("NFLX.F", "NFLX")]

/-- Python `dict[key]` guarded by `key in dict`, on an association list. -/
def lookupMap (m : List (String × String)) (k : String) : Option String :=
  (m.find? (fun p => p.1 = k)).map (·.2)

/-- `financial_api.normalizar_ticker`: empty input is returned unchanged;
otherwise the input is stripped and upper-cased and the first matching rule
wins, in the source's priority order (specific map, crypto map, commodity
map, market-suffix strip via `str.replace(suffix, '')`, identity). -/
def normalizar_ticker (t : String) : String :=
  if t = "" then t
  else
    let tk := pyUpper (pyStrip t)
    match lookupMap specific_map tk, lookupMap crypto_map tk,
          lookupMap commodity_map tk with
    | some v, _, _ => v
    | none, some v, _ => v
    | none, none, some v => v
    | none, none, none =>
      match market_suffixes.find? (fun suffix => pyEndsWith tk suffix) with
      | some suffix => pyReplaceEmpty tk suffix
      | none => tk

example : normalizar_ticker "NVD.F" = "NVDA" := by decide
example : normalizar_ticker " btcusd " = "BTC-USD" := by decide
example : normalizar_ticker "BTCUSD.F" = "BTCUSD" := by decide

/-! ## Character-level facts about the ASCII case model -/

theorem toNat_ofNat_small {n : Nat} (h : n < 0xd800) : (Char.ofNat n).toNat = n := by
  have hv : n.isValidChar := Or.inl h
  simp [Char.ofNat, hv, Char.ofNatAux, Char.toNat, UInt32.toNat]

theorem pyToUpperChar_pyToLowerChar (c : Char) :
    pyToUpperChar (pyToLowerChar c) = pyToUpperChar c := by
  unfold pyToLowerChar pyToUpperChar
  by_cases h : 65 ≤ c.toNat ∧ c.toNat ≤ 90
  · have ht : (Char.ofNat (c.toNat + 32)).toNat = c.toNat + 32 :=
      toNat_ofNat_small (by omega)
    rw [if_pos h, ht]
    rw [if_pos (by omega : 97 ≤ c.toNat + 32 ∧ c.toNat + 32 ≤ 122)]
    rw [if_neg (by omega : ¬ (97 ≤ c.toNat ∧ c.toNat ≤ 122))]
    have harith : c.toNat + 32 - 32 = c.toNat := by omega
    rw [harith, Char.ofNat_toNat]
  · rw [if_neg h]

theorem pyToUpperChar_idem (c : Char) :
    pyToUpperChar (pyToUpperChar c) = pyToUpperChar c := by
  unfold pyToUpperChar
  by_cases h : 97 ≤ c.toNat ∧ c.toNat ≤ 122
  · have ht : (Char.ofNat (c.toNat - 32)).toNat = c.toNat - 32 :=
      toNat_ofNat_small (by omega)
    rw [if_pos h, ht]
    rw [if_neg (by omega : ¬ (97 ≤ c.toNat - 32 ∧ c.toNat - 32 ≤ 122))]
  · rw [if_neg h, if_neg h]

/-- Every character the source's whitespace set contains has code point
at most 32, so any character with a larger code point is not whitespace. -/
theorem pyIsSpaceChar_false {c : Char} (h : 33 ≤ c.toNat) : pyIsSpaceChar c = false := by
  unfold pyIsSpaceChar
  have hdec : ∀ e : Char, e.toNat ≤ 32 → decide (c = e) = false := by
    intro e he
    apply decide_eq_false
    intro hce
    subst hce
    omega
  rw [hdec ' ' (by decide), hdec '\t' (by decide), hdec '\n' (by decide),
      hdec '\r' (by decide), hdec '\x0b' (by decide), hdec '\x0c' (by decide)]
  rfl

theorem pyIsSpaceChar_pyToLowerChar (c : Char) :
    pyIsSpaceChar (pyToLowerChar c) = pyIsSpaceChar c := by
  unfold pyToLowerChar
  by_cases h : 65 ≤ c.toNat ∧ c.toNat ≤ 90
  · rw [if_pos h,
        pyIsSpaceChar_false (by rw [toNat_ofNat_small (by omega)]; omega),
        pyIsSpaceChar_false (by omega)]
  · rw [if_neg h]

theorem pyIsSpaceChar_pyToUpperChar (c : Char) :
    pyIsSpaceChar (pyToUpperChar c) = pyIsSpaceChar c := by
  unfold pyToUpperChar
  by_cases h : 97 ≤ c.toNat ∧ c.toNat ≤ 122
  · rw [if_pos h,
        pyIsSpaceChar_false (by rw [toNat_ofNat_small (by omega)]; omega),
        pyIsSpaceChar_false (by omega)]
  · rw [if_neg h]

/-! ## String-level facts used for normalization claims -/

theorem dropWhile_dropWhile {α : Type} (p : α → Bool) (l : List α) :
    (l.dropWhile p).dropWhile p = l.dropWhile p := by
  induction l with
  | nil => rfl
  | cons a l ih =>
    by_cases h : p a
    · simp [List.dropWhile_cons_of_pos h, ih]
    · simp [List.dropWhile_cons_of_neg h]

theorem frontClean_of_prefix {α : Type} {p : α → Bool} {l₁ l₂ : List α}
    (hpre : l₁ <+: l₂) (h : l₂.dropWhile p = l₂) : l₁.dropWhile p = l₁ := by
  cases l₁ with
  | nil => rfl
  | cons a t =>
    obtain ⟨r, hr⟩ := hpre
    have hpa : ¬ p a = true := by
      intro hpa
      subst hr
      rw [List.cons_append, List.dropWhile_cons_of_pos hpa] at h
      have hlen : (List.dropWhile p (t ++ r)).length = t.length + r.length + 1 := by
        rw [h]
        simp
      have hle := (List.dropWhile_suffix (l := t ++ r) p).length_le
      rw [List.length_append] at hle
      omega
    rw [List.dropWhile_cons_of_neg hpa]

theorem pyStripL_map (f : Char → Char)
    (hf : ∀ c, pyIsSpaceChar (f c) = pyIsSpaceChar c) (l : List Char) :
    pyStripL (l.map f) = (pyStripL l).map f := by
  unfold pyStripL
  have hcomp : (pyIsSpaceChar ∘ f) = pyIsSpaceChar := funext hf
  rw [List.dropWhile_map, hcomp, ← List.map_reverse, List.dropWhile_map, hcomp,
    ← List.map_reverse]

theorem pyStripL_idem (l : List Char) : pyStripL (pyStripL l) = pyStripL l := by
  have hAclean :
      (l.dropWhile pyIsSpaceChar).dropWhile pyIsSpaceChar = l.dropWhile pyIsSpaceChar :=
    dropWhile_dropWhile _ _
  have hpre :
      ((l.dropWhile pyIsSpaceChar).reverse.dropWhile pyIsSpaceChar).reverse <+:
        l.dropWhile pyIsSpaceChar := by
    have hpre' := List.reverse_prefix.mpr
      (List.dropWhile_suffix (l := (l.dropWhile pyIsSpaceChar).reverse) pyIsSpaceChar)
    rw [List.reverse_reverse] at hpre'
    exact hpre'
  have h1 := frontClean_of_prefix hpre hAclean
  unfold pyStripL
  rw [h1, List.reverse_reverse, dropWhile_dropWhile]

theorem pyUpper_pyStrip_pyLower (s : String) :
    pyUpper (pyStrip (pyLower s)) = pyUpper (pyStrip s) := by
  show (⟨(pyStripL (s.data.map pyToLowerChar)).map pyToUpperChar⟩ : String)
      = ⟨(pyStripL s.data).map pyToUpperChar⟩
  rw [pyStripL_map _ pyIsSpaceChar_pyToLowerChar, List.map_map]
  have hcomp : pyToUpperChar ∘ pyToLowerChar = pyToUpperChar :=
    funext pyToUpperChar_pyToLowerChar
  rw [hcomp]

theorem pyUpper_pyStrip_fixpoint (s : String) :
    pyUpper (pyStrip (pyUpper (pyStrip s))) = pyUpper (pyStrip s) := by
  show (⟨(pyStripL ((pyStripL s.data).map pyToUpperChar)).map pyToUpperChar⟩ : String)
      = ⟨(pyStripL s.data).map pyToUpperChar⟩
  rw [pyStripL_map _ pyIsSpaceChar_pyToUpperChar, pyStripL_idem, List.map_map]
  have hcomp : pyToUpperChar ∘ pyToUpperChar = pyToUpperChar :=
    funext pyToUpperChar_idem
  rw [hcomp]

theorem pyLower_empty_iff (s : String) : pyLower s = "" ↔ s = "" := by
  cases s with
  | mk l =>
    cases l with
    | nil => exact ⟨fun _ => rfl, fun _ => rfl⟩
    | cons a t =>
      constructor
      · intro h
        exact absurd (congrArg String.data h) (by simp [pyLower])
      · intro h
        exact absurd (congrArg String.data h) (by simp)

theorem normalizar_ticker_pyLower (x : String) :
    normalizar_ticker (pyLower x) = normalizar_ticker x := by
  by_cases hx : x = ""
  · subst hx
    rfl
  · have hlx : ¬ pyLower x = "" := fun h => hx ((pyLower_empty_iff x).mp h)
    simp only [normalizar_ticker, if_neg hx, if_neg hlx, pyUpper_pyStrip_pyLower]

/-- Branch selector corresponding to the source's rule priority: `true` iff
the market-suffix-stripping rule (rule 4) is the one that fires for `t`. -/
def usesSuffixRule (t : String) : Bool :=
  if t = "" then false
  else
    let tk := pyUpper (pyStrip t)
    match lookupMap specific_map tk, lookupMap crypto_map tk,
          lookupMap commodity_map tk with
    | none, none, none =>
      (market_suffixes.find? (fun suffix => pyEndsWith tk suffix)).isSome
    | _, _, _ => false

theorem specific_map_values_fixed :
    ∀ p ∈ specific_map, normalizar_ticker p.2 = p.2 := by decide

theorem crypto_map_values_fixed :
    ∀ p ∈ crypto_map, normalizar_ticker p.2 = p.2 := by decide

theorem commodity_map_values_fixed :
    ∀ p ∈ commodity_map, normalizar_ticker p.2 = p.2 := by decide

theorem lookupMap_value_mem {m : List (String × String)} {k v : String}
    (h : lookupMap m k = some v) : ∃ p ∈ m, p.2 = v := by
  unfold lookupMap at h
  cases hf : m.find? (fun p => p.1 = k) with
  | none => rw [hf] at h; exact absurd h (by simp)
  | some pr =>
    rw [hf] at h
    refine ⟨pr, List.mem_of_find?_eq_some hf, ?_⟩
    simpa using h

theorem normalizar_fixpoint_of_no_rule (tk : String)
    (htk : pyUpper (pyStrip tk) = tk)
    (h1 : lookupMap specific_map tk = none)
    (h2 : lookupMap crypto_map tk = none)
    (h3 : lookupMap commodity_map tk = none)
    (h4 : market_suffixes.find? (fun suffix => pyEndsWith tk suffix) = none) :
    normalizar_ticker tk = tk := by
  by_cases h : tk = ""
  · subst h
    rfl
  · simp only [normalizar_ticker, if_neg h, htk, h1, h2, h3, h4]

/-- **C3 (corrected/amended).** `normalizar_ticker` is total by construction,
case-insensitive for every input (`normalizar_ticker x =
normalizar_ticker (x.lower())`), and idempotent for every input for which
the market-suffix-stripping rule is not the rule that fires.  (Idempotence
fails in general — see the counterexample theorem — because a
suffix-stripped result may itself match a further normalization rule.) -/
theorem normalizar_ticker_caseless_and_restricted_idempotent (x : String) :
    normalizar_ticker x = normalizar_ticker (pyLower x) ∧
    (usesSuffixRule x = false →
      normalizar_ticker (normalizar_ticker x) = normalizar_ticker x) := by
  refine ⟨(normalizar_ticker_pyLower x).symm, fun hsuf => ?_⟩
  by_cases hx : x = ""
  · subst hx
    rfl
  · cases h1 : lookupMap specific_map (pyUpper (pyStrip x)) with
    | some v =>
      have hx_eq : normalizar_ticker x = v := by
        simp only [normalizar_ticker, if_neg hx, h1]
      obtain ⟨p, hp, hpv⟩ := lookupMap_value_mem h1
      rw [hx_eq]
      exact hpv ▸ specific_map_values_fixed p hp
    | none =>
      cases h2 : lookupMap crypto_map (pyUpper (pyStrip x)) with
      | some v =>
        have hx_eq : normalizar_ticker x = v := by
          simp only [normalizar_ticker, if_neg hx, h1, h2]
        obtain ⟨p, hp, hpv⟩ := lookupMap_value_mem h2
        rw [hx_eq]
        exact hpv ▸ crypto_map_values_fixed p hp
      | none =>
        cases h3 : lookupMap commodity_map (pyUpper (pyStrip x)) with
        | some v =>
          have hx_eq : normalizar_ticker x = v := by
            simp only [normalizar_ticker, if_neg hx, h1, h2, h3]
          obtain ⟨p, hp, hpv⟩ := lookupMap_value_mem h3
          rw [hx_eq]
          exact hpv ▸ commodity_map_values_fixed p hp
        | none =>
          cases h4 : market_suffixes.find?
              (fun suffix => pyEndsWith (pyUpper (pyStrip x)) suffix) with
          | some suf =>
            exfalso
            have htrue : usesSuffixRule x = true := by
              simp only [usesSuffixRule, if_neg hx, h1, h2, h3, h4, Option.isSome_some]
            rw [htrue] at hsuf
            exact Bool.noConfusion hsuf
          | none =>
            have hx_eq : normalizar_ticker x = pyUpper (pyStrip x) := by
              simp only [normalizar_ticker, if_neg hx, h1, h2, h3, h4]
            rw [hx_eq]
            exact normalizar_fixpoint_of_no_rule _ (pyUpper_pyStrip_fixpoint x) h1 h2 h3 h4

/-- **C3 counterexample.** Normalization is *not* idempotent as claimed:
`"BTCUSD.F"` first has its Frankfurt suffix stripped, yielding `"BTCUSD"`,
but normalizing that result again rewrites it to `"BTC-USD"`. -/
theorem normalizar_ticker_idempotence_fails :
    normalizar_ticker (normalizar_ticker "BTCUSD.F") ≠ normalizar_ticker "BTCUSD.F" := by
  decide

/-- **C3 witness.** The amended statement applied at the concrete input
`" btcusd "` (the crypto rule fires there, so the suffix rule does not). -/
theorem normalizar_ticker_caseless_witness :
    usesSuffixRule " btcusd " = false ∧
    normalizar_ticker " btcusd " = normalizar_ticker (pyLower " btcusd ") ∧
    normalizar_ticker (normalizar_ticker " btcusd ") = normalizar_ticker " btcusd " :=
  ⟨by decide,
   (normalizar_ticker_caseless_and_restricted_idempotent " btcusd ").1,
   (normalizar_ticker_caseless_and_restricted_idempotent " btcusd ").2 (by decide)⟩

/-- **C8.** The documented normalization table entries hold exactly:
`NVD.F ↦ NVDA` (specific map), `BTCUSD ↦ BTC-USD` (crypto map),
`AAPL.DE ↦ AAPL` (market-suffix strip), `MSFT ↦ MSFT` (identity). -/
theorem normalizar_ticker_documented_entries :
    normalizar_ticker "NVD.F" = "NVDA" ∧
    normalizar_ticker "BTCUSD" = "BTC-USD" ∧
    normalizar_ticker "AAPL.DE" = "AAPL" ∧
    normalizar_ticker "MSFT" = "MSFT" := by
  decide

/-! ## JSON values, dicts and data frames (model of the payloads) -/

/-- A JSON scalar as the report renderer distinguishes them: the only
behavioural split the source makes is numeric (formattable with `:,.2f`)
versus string (raises `ValueError` under `:,.2f`). -/
inductive Value where
  | str (s : String)
  | num (n : Int)
deriving DecidableEq, Repr

/-- A Python dict with string keys (JSON object). -/
abbrev PDict := List (String × Value)

/-- Python `d.get(k, dflt)`. -/
def pyGet (d : PDict) (k : String) (dflt : Value) : Value :=
  match d.find? (fun p => p.1 = k) with
  | some p => p.2
  | none => dflt

/-- Python `str(v)` on a JSON scalar. -/
def pyStr : Value → String
  | .str s => s
  | .num n => toString n

/-- Thousands grouping for Python format spec `,` (input digits reversed). -/
def groupRev : List Char → List Char
  | a :: b :: c :: d :: rest => a :: b :: c :: ',' :: groupRev (d :: rest)
  | l => l

def intWithCommas (n : Int) : String :=
  (if n < 0 then "-" else "") ++ ⟨(groupRev (toString n.natAbs).data.reverse).reverse⟩

/-- Python `f"{v:,.2f}"`: formats a number with thousands separators and two
decimals, but **raises `ValueError`** when `v` is a string — including the
string default `'N/A'` the source supplies for a missing `mktCap`. -/
def formatComma2f : Value → Except String String
  | .num n => .ok (intWithCommas n ++ ".00")
  | .str _ => .error "ValueError: unknown format code f for object of type str"

/-- A pandas `DataFrame`, abstracted to the two observations the report
logic makes: its column set and its row count. -/
structure DF where
  columns : List String
  nrows : Nat
deriving DecidableEq, Repr

/-- pandas `DataFrame.empty` (no elements along some axis). -/
def DF.isEmpty (df : DF) : Bool := df.nrows = 0 || df.columns.isEmpty

/-- Abstraction of `DataFrame.to_markdown`: a deterministic rendering of the
frame's shape.  No claim depends on the table text itself, only on which
sections are present. -/
def DF.toMarkdownStr (df : DF) : String :=
  "| " ++ String.intercalate " | " df.columns ++ " | (" ++ toString df.nrows ++ " rows)"

/-- pandas `df.tail(n)`. -/
def DF.tail (df : DF) (n : Nat) : DF := ⟨df.columns, min df.nrows n⟩

/-- pandas `df.head(n)`. -/
def DF.headN (df : DF) (n : Nat) : DF := ⟨df.columns, min df.nrows n⟩

/-- pandas `df[cols]`: raises `KeyError` when any requested column is
missing. -/
def DF.selectCols (df : DF) (cols : List String) : Except String DF :=
  if cols.all (fun c => df.columns.contains c) then .ok ⟨cols, df.nrows⟩
  else .error "KeyError: missing column"

/-- pandas `df.iloc[:, :n]`. -/
def DF.ilocCols (df : DF) (n : Nat) : DF := ⟨df.columns.take n, df.nrows⟩

/-- `config.DIAS_HISTORICOS` (its default value `1`, from `config.py`). -/
def DIAS_HISTORICOS : Nat := 1

/-! ## Report renderer (`financial_api.generate_markdown_report`) -/

/-- Section 1 of the report.  Mirrors the `if profile:` block: a falsy
profile (absent, or an empty dict) yields the fixed unavailable sentence;
otherwise the `mktCap` field is pushed through `:,.2f` (which can raise)
and `description` is sliced to 500 characters (which raises on non-str). -/
def profile_section (profile : Option PDict) : Except String String :=
  match profile with
  | none => .ok "No se pudo obtener el perfil de la empresa.\n"
  | some p =>
    if p.isEmpty then .ok "No se pudo obtener el perfil de la empresa.\n"
    else
      (formatComma2f (pyGet p "mktCap" (.str "N/A"))).bind fun mkt =>
      ((match pyGet p "description" (.str "N/A") with
        | .str s => .ok (⟨s.data.take 500⟩ : String)
        | .num _ => .error "TypeError: int object is not subscriptable") :
        Except String String).bind fun desc =>
      .ok ("* **Nombre de la Empresa:** " ++ pyStr (pyGet p "companyName" (.str "N/A")) ++ "\n"
        ++ "* **Símbolo:** " ++ pyStr (pyGet p "symbol" (.str "N/A")) ++ "\n"
        ++ "* **Sector:** " ++ pyStr (pyGet p "sector" (.str "N/A")) ++ "\n"
        ++ "* **Industria:** " ++ pyStr (pyGet p "industry" (.str "N/A")) ++ "\n"
        ++ "* **Capitalización de Mercado:** $" ++ mkt ++ "\n"
        ++ "* **Moneda:** " ++ pyStr (pyGet p "currency" (.str "N/A")) ++ "\n"
        ++ "* **Último Precio de Cierre (FMP):** $" ++ pyStr (pyGet p "price" (.str "N/A")) ++ "\n"
        ++ "* **Descripción:** " ++ desc ++ "...\n")

/-- The shared shape of the three fundamentals blocks (sections 2.1–2.3):
present and non-empty frame renders the desired columns that exist (or the
first 6 columns with a notice); otherwise the fixed unavailable sentence. -/
def fundamental_section (df? : Option DF) (secHeader : String)
    (desired : List String) (failMsg : String) : String :=
  match df? with
  | some df =>
    if !(DF.isEmpty df) then
      let available := desired.filter (fun c => df.columns.contains c)
      if available.isEmpty then
        secHeader
          ++ "Columnas esperadas no encontradas. Mostrando primeras 6 columnas disponibles:\n"
          ++ (DF.ilocCols df 6).toMarkdownStr ++ "\n\n"
      else
        secHeader ++ (DF.mk available df.nrows).toMarkdownStr ++ "\n\n"
    else failMsg
  | none => failMsg

/-- Section 3.1 (Alpha Vantage daily prices). -/
def daily_av_section (df? : Option DF) : String :=
  match df? with
  | some df =>
    if !(DF.isEmpty df) then
      "### 3.1. Precios Diarios (Alpha Vantage - Últimos "
        ++ toString (min df.nrows DIAS_HISTORICOS) ++ " Días)\n"
        ++ (df.tail DIAS_HISTORICOS).toMarkdownStr ++ "\n\n"
    else "No se pudieron obtener los precios diarios de Alpha Vantage.\n"
  | none => "No se pudieron obtener los precios diarios de Alpha Vantage.\n"

/-- Section 3.2 (Alpha Vantage intraday prices). -/
def intraday_av_section (df? : Option DF) : String :=
  match df? with
  | some df =>
    if !(DF.isEmpty df) then
      "### 3.2. Precios Intradía (Alpha Vantage - Intervalo de 5min - Últimas 100 barras)\n"
        ++ "_Nota: La disponibilidad de datos de pre-mercado específicos depende del plan y configuración de la API._\n"
        ++ (df.tail 100).toMarkdownStr ++ "\n\n"
    else "No se pudieron obtener los precios intradía de Alpha Vantage.\n"
  | none => "No se pudieron obtener los precios intradía de Alpha Vantage.\n"

/-- Section 3.3 (yfinance daily prices). -/
def daily_yf_section (df? : Option DF) : String :=
  match df? with
  | some df =>
    if !(DF.isEmpty df) then
      "### 3.3. Precios Diarios (yfinance - Últimos "
        ++ toString (min df.nrows DIAS_HISTORICOS) ++ " Días)\n"
        ++ (df.tail DIAS_HISTORICOS).toMarkdownStr ++ "\n\n"
    else "No se pudieron obtener los precios diarios de yfinance.\n"
  | none => "No se pudieron obtener los precios diarios de yfinance.\n"

/-- Section 4 (Finnhub news).  `finnhub_news[cols_news]` raises `KeyError`
when the frame lacks one of the four requested columns. -/
def news_section (ticker : String) (df? : Option DF) : Except String String :=
  match df? with
  | some df =>
    if !(DF.isEmpty df) then
      (df.selectCols ["datetime", "headline", "source", "url"]).bind fun sel =>
      .ok ("### 4.1. Últimas Noticias de la Empresa\n"
        ++ (sel.headN 10).toMarkdownStr ++ "\n\n")
    else .ok ("No se pudieron obtener noticias recientes de Finnhub para " ++ ticker ++ ".\n")
  | none => .ok ("No se pudieron obtener noticias recientes de Finnhub para " ++ ticker ++ ".\n")

/-- `financial_api.generate_markdown_report`.  Parameters follow the source
signature, preceded by `now` (the wall-clock string the source obtains from
`datetime.datetime.now()`).  The result is `Except`: `.error` models the
function raising (which the source can do via the `:,.2f` format applied to
a profile without a numeric `mktCap`, or column selection on a news frame
lacking the expected columns). -/
def generate_markdown_report (now : String) (ticker : String)
    (profile : Option PDict)
    (daily_prices_av intraday_prices_av income_statement_fmp balance_sheet_fmp
     cash_flow_fmp daily_prices_yf finnhub_news : Option DF) :
    Except String String :=
  (profile_section profile).bind fun profileSec =>
  (news_section ticker finnhub_news).bind fun newsSec =>
  .ok ("# Análisis Financiero de " ++ ticker ++ "\n\n"
    ++ ("Generado el: " ++ now ++ "\n\n"
    ++ "---\n\n"
    ++ "## 1. Perfil y Datos Generales (FMP)\n" ++ profileSec ++ "\n"
    ++ "## 2. Datos Fundamentales Clave (FMP - Último Reporte Anual)\n"
    ++ fundamental_section income_statement_fmp
         "### 2.1. Estado de Resultados (Income Statement)\n"
         ["revenue", "costOfRevenue", "grossProfit", "operatingIncome", "netIncome", "eps"]
         "No se pudo obtener el Estado de Resultados.\n"
    ++ fundamental_section balance_sheet_fmp
         "### 2.2. Balance General (Balance Sheet)\n"
         ["cashAndCashEquivalents", "totalCurrentAssets", "totalAssets",
          "totalCurrentLiabilities", "totalLiabilities", "totalEquity"]
         "No se pudo obtener el Balance General.\n"
    ++ fundamental_section cash_flow_fmp
         "### 2.3. Flujo de Caja (Cash Flow Statement)\n"
         ["netIncome", "depreciationAndAmortization", "changesInWorkingCapital",
          "cashFlowFromOperatingActivities", "capitalExpenditure",
          "cashFlowFromFinancingActivities"]
         "No se pudo obtener el Flujo de Caja.\n"
    ++ "## 3. Datos Históricos de Precios e Indicadores\n"
    ++ daily_av_section daily_prices_av
    ++ intraday_av_section intraday_prices_av
    ++ daily_yf_section daily_prices_yf
    ++ "## 4. Noticias Recientes y Eventos (Finnhub)\n" ++ newsSec
    ++ "---\n\n"
    ++ "_Análisis generado automáticamente. Los datos pueden variar según la disponibilidad de la API y los límites del plan._\n"))

/-- **C2 (code bug).** `generate_markdown_report` is claimed never to raise
for any bundle, with a present profile being an arbitrary mapping possibly
lacking individual keys.  But when the profile dict lacks `mktCap`, the
source evaluates `f"...{profile.get('mktCap', 'N/A'):,.2f}"`: the string
default `'N/A'` meets the numeric format spec `,.2f` and CPython raises
`ValueError`, so document generation raises instead of producing the
document.  This contradicts the explicit `.get(..., 'N/A')` fallback the
line itself supplies (and §4.4 of the spec: missing values render as
`N/A`). -/
theorem generate_markdown_report_raises_on_missing_mktCap :
    generate_markdown_report "2026-10-12 09:00:00" "AAPL"
      (some [("companyName", Value.str "TestCo")])
      none none none none none none none
    = .error "ValueError: unknown format code f for object of type str" := by
  rfl

/-! ## Provider fetch wrappers (`financial_api`) -/

/-- Outcome shapes of a JSON-list endpoint call, exactly the shapes the
source branches on: a transport failure (`requests` exception, caught by
the wrapper), a JSON payload that is falsy or not a list (the
`data and isinstance(data, list)` guard), or a JSON list of objects. -/
inductive JsonResp where
  | httpError
  | nonList
  | list (rows : List PDict)

/-- Column set of `pd.DataFrame(list_of_dicts)`: the union of the row keys. -/
def colsOf (rows : List PDict) : List String :=
  (rows.foldr (fun r acc => r.map (fun p => p.1) ++ acc) []).dedup

/-- `financial_api.get_fmp_company_profile`: requires a truthy list whose
first element is a truthy dict; every failure shape degrades to `None`. -/
def get_fmp_company_profile : JsonResp → Option PDict
  | .httpError => none
  | .nonList => none
  | .list [] => none
  | .list (r :: _) => if r.isEmpty then none else some r

/-- `financial_api.get_fmp_financial_statements`: transport errors and
falsy/non-list payloads degrade to `None`, but a non-empty list of records
lacking a `date` key makes `pd.DataFrame(data).set_index('date')` raise
`KeyError`, which the wrapper's `except RequestException` clause does NOT
catch — the exception escapes the fetch. -/
def get_fmp_financial_statements : JsonResp → Except String (Option DF)
  | .httpError => .ok none
  | .nonList => .ok none
  | .list [] => .ok none
  | .list (r :: rest) =>
    let cols := colsOf (r :: rest)
    if cols.contains "date" then
      .ok (some ⟨cols.erase "date", (r :: rest).length⟩)
    else .error "KeyError: date"

/-- Outcome shapes of an Alpha Vantage call: transport failure, a JSON
payload without the time-series key, or a time series with `nrows` bars. -/
inductive AvResp where
  | httpError
  | missingSeries
  | series (nrows : Nat)

/-- `financial_api.get_alpha_vantage_daily_prices`: every failure shape is
guarded and degrades to `None`. -/
def get_alpha_vantage_daily_prices : AvResp → Option DF
  | .httpError => none
  | .missingSeries => none
  | .series n => some ⟨["Open", "High", "Low", "Close", "Volume"], n⟩

/-- `financial_api.get_alpha_vantage_intraday_prices` (same shape as the
daily wrapper). -/
def get_alpha_vantage_intraday_prices : AvResp → Option DF
  | .httpError => none
  | .missingSeries => none
  | .series n => some ⟨["Open", "High", "Low", "Close", "Volume"], n⟩

/-- Outcome of `yf.download`: any exception (caught by the wrapper's
catch-all) or a frame. -/
inductive YfResp where
  | failure
  | frame (df : DF)

/-- `financial_api.get_yfinance_historical_data`: catch-all `except`, and
an empty frame degrades to `None`. -/
def get_yfinance_historical_data : YfResp → Option DF
  | .failure => none
  | .frame df => if !(DF.isEmpty df) then some df else none

/-- `financial_api.get_finnhub_company_news`: transport errors and
falsy/non-list payloads degrade to `None`, but a non-empty list of records
lacking a `datetime` key makes `df['datetime']` raise `KeyError`, which the
wrapper's `except RequestException` clause does NOT catch. -/
def get_finnhub_company_news : JsonResp → Except String (Option DF)
  | .httpError => .ok none
  | .nonList => .ok none
  | .list [] => .ok none
  | .list (r :: rest) =>
    let cols := colsOf (r :: rest)
    if cols.contains "datetime" then .ok (some ⟨cols, (r :: rest).length⟩)
    else .error "KeyError: datetime"

/-- The external world for one run: what each provider answers for each
(normalized) ticker, and the wall-clock string. -/
structure ProviderEnv where
  now : String
  fmpProfile : String → JsonResp
  fmpIncome : String → JsonResp
  fmpBalance : String → JsonResp
  fmpCashflow : String → JsonResp
  avDaily : String → AvResp
  avIntraday : String → AvResp
  yf : String → YfResp
  finnhubNews : String → JsonResp

/-- The per-ticker aggregation bundle (the spec's `MarketDataBundle`):
the local variables of `procesar_ticker` handed to the renderer. -/
structure Facets where
  profile : Option PDict
  income : Option DF
  balance : Option DF
  cash_flow : Option DF
  daily_prices_av : Option DF
  intraday_prices_av : Option DF
  daily_prices_yf : Option DF
  finnhub_news : Option DF
deriving DecidableEq, Repr

/-- The fetch block of `financial_api.procesar_ticker` (lines inside the
`try:`), in source order.  A `KeyError` escaping one of the statement/news
fetches aborts the remaining fetches. -/
def fetch_facets (env : ProviderEnv) (t : String) : Except String Facets :=
  let profile := get_fmp_company_profile (env.fmpProfile t)
  (get_fmp_financial_statements (env.fmpIncome t)).bind fun income =>
  (get_fmp_financial_statements (env.fmpBalance t)).bind fun balance =>
  (get_fmp_financial_statements (env.fmpCashflow t)).bind fun cash_flow =>
  let daily_av := get_alpha_vantage_daily_prices (env.avDaily t)
  let intraday_av := get_alpha_vantage_intraday_prices (env.avIntraday t)
  let daily_yf := get_yfinance_historical_data (env.yf t)
  (get_finnhub_company_news (env.finnhubNews t)).bind fun news =>
  .ok ⟨profile, income, balance, cash_flow, daily_av, intraday_av, daily_yf, news⟩

/-- `financial_api.procesar_ticker`: normalize, fetch every facet, render;
the surrounding catch-all `except` turns any raised exception into `None`. -/
def procesar_ticker (env : ProviderEnv) (ticker : String) (cliente_id : String) :
    Option String :=
  let t := normalizar_ticker ticker
  match (fetch_facets env t).bind fun f =>
      generate_markdown_report env.now t f.profile f.daily_prices_av
        f.intraday_prices_av f.income f.balance f.cash_flow
        f.daily_prices_yf f.finnhub_news with
  | .ok r => some r
  | .error _ => none

/-- Environment for the C5 counterexample: profile call succeeds, but the
income-statement endpoint answers a non-empty list whose records lack the
`date` field (malformed schema). -/
def envMalformedIncome : ProviderEnv where
  now := "2026-10-12 09:00:00"
  fmpProfile := fun _ => .list [[("companyName", .str "Apple Inc"),
    ("mktCap", .num 3000000000000)]]
  fmpIncome := fun _ => .list [[("revenue", .num 383285000000)]]
  fmpBalance := fun _ => .httpError
  fmpCashflow := fun _ => .httpError
  avDaily := fun _ => .httpError
  avIntraday := fun _ => .httpError
  yf := fun _ => .failure
  finnhubNews := fun _ => .httpError

/-- **C5 counterexample.** A malformed-schema payload (non-empty
income-statement list without a `date` key) does *not* merely mark that
facet absent: the `KeyError` escapes `get_fmp_financial_statements`, is
caught only by `procesar_ticker`'s whole-ticker `except`, and the ticker
produces no report at all — even though the profile call succeeded. -/
theorem procesar_ticker_malformed_schema_aborts_ticker :
    get_fmp_company_profile (envMalformedIncome.fmpProfile "AAPL")
        = some [("companyName", .str "Apple Inc"), ("mktCap", .num 3000000000000)] ∧
    (get_fmp_financial_statements (envMalformedIncome.fmpIncome "AAPL")).isOk = false ∧
    procesar_ticker envMalformedIncome "AAPL" "cliente-1" = none := by
  refine ⟨rfl, rfl, ?_⟩
  rfl

theorem pyGet_nil (k : String) (dflt : Value) : pyGet [] k dflt = dflt := rfl

theorem profile_section_ok_of_safe (p : PDict)
    (hmkt : ∃ n, pyGet p "mktCap" (.str "N/A") = .num n)
    (hdesc : ∃ s, pyGet p "description" (.str "N/A") = .str s) :
    ∃ ps, profile_section (some p) = .ok ps := by
  obtain ⟨n, hn⟩ := hmkt
  obtain ⟨sd, hsd⟩ := hdesc
  have hpne : p.isEmpty = false := by
    cases p with
    | nil => rw [pyGet_nil] at hn; exact absurd hn (by simp)
    | cons a t => rfl
  cases hres : profile_section (some p) with
  | ok v => exact ⟨v, rfl⟩
  | error e =>
    simp [profile_section, hpne, hn, hsd, formatComma2f, Except.bind] at hres

theorem generate_markdown_report_ok_of_sections
    (now ticker : String) (profile : Option PDict)
    (a b c d e f g : Option DF) (ps ns : String)
    (hp : profile_section profile = .ok ps)
    (hn : news_section ticker g = .ok ns) :
    ∃ s, generate_markdown_report now ticker profile a b c d e f g = .ok s := by
  unfold generate_markdown_report
  rw [hp, hn]
  exact ⟨_, rfl⟩

/-- **C5 (corrected/amended).** HTTP errors and empty payloads in the
price-history facets degrade only those facets: whenever the profile fetch
succeeds with a profile that renders (numeric `mktCap`, string
`description` — as real FMP profiles provide), the three statement fetches
do not hit the uncaught malformed-schema `KeyError`, the news fetch yields
no frame, and all three price sources fail, the bundle has the profile
present and every price facet absent, and the per-ticker report is still
generated.  (The claim's full "malformed schema" case is refuted by the
counterexample theorem: a malformed statements payload aborts the whole
ticker.) -/
theorem procesar_ticker_prices_absent_profile_present
    (env : ProviderEnv) (ticker cliente_id : String) (p : PDict)
    (hprof : get_fmp_company_profile (env.fmpProfile (normalizar_ticker ticker)) = some p)
    (hmkt : ∃ n, pyGet p "mktCap" (.str "N/A") = .num n)
    (hdesc : ∃ s, pyGet p "description" (.str "N/A") = .str s)
    (hinc : ∃ o, get_fmp_financial_statements (env.fmpIncome (normalizar_ticker ticker)) = .ok o)
    (hbal : ∃ o, get_fmp_financial_statements (env.fmpBalance (normalizar_ticker ticker)) = .ok o)
    (hcf : ∃ o, get_fmp_financial_statements (env.fmpCashflow (normalizar_ticker ticker)) = .ok o)
    (hav : get_alpha_vantage_daily_prices (env.avDaily (normalizar_ticker ticker)) = none)
    (hav2 : get_alpha_vantage_intraday_prices (env.avIntraday (normalizar_ticker ticker)) = none)
    (hyf : get_yfinance_historical_data (env.yf (normalizar_ticker ticker)) = none)
    (hnews : get_finnhub_company_news (env.finnhubNews (normalizar_ticker ticker)) = .ok none) :
    ∃ f : Facets, fetch_facets env (normalizar_ticker ticker) = .ok f
      ∧ f.profile = some p
      ∧ f.daily_prices_av = none
      ∧ f.intraday_prices_av = none
      ∧ f.daily_prices_yf = none
      ∧ ∃ s, procesar_ticker env ticker cliente_id = some s := by
  obtain ⟨oi, hoi⟩ := hinc
  obtain ⟨ob, hob⟩ := hbal
  obtain ⟨oc, hoc⟩ := hcf
  have hfetch : fetch_facets env (normalizar_ticker ticker)
      = .ok ⟨some p, oi, ob, oc, none, none, none, none⟩ := by
    unfold fetch_facets
    rw [hprof, hoi, hob, hoc, hav, hav2, hyf, hnews]
    rfl
  refine ⟨⟨some p, oi, ob, oc, none, none, none, none⟩, hfetch, rfl, rfl, rfl, rfl, ?_⟩
  obtain ⟨ps, hps⟩ := profile_section_ok_of_safe p hmkt hdesc
  obtain ⟨s, hgen⟩ := generate_markdown_report_ok_of_sections env.now
    (normalizar_ticker ticker) (some p) none none oi ob oc none none ps _ hps rfl
  refine ⟨s, ?_⟩
  show (match (fetch_facets env (normalizar_ticker ticker)).bind fun f =>
      generate_markdown_report env.now (normalizar_ticker ticker) f.profile
        f.daily_prices_av f.intraday_prices_av f.income f.balance f.cash_flow
        f.daily_prices_yf f.finnhub_news with
    | Except.ok r => some r
    | Except.error _ => none) = some s
  rw [hfetch]
  show (match generate_markdown_report env.now (normalizar_ticker ticker) (some p)
      none none oi ob oc none none with
    | Except.ok r => some r
    | Except.error _ => none) = some s
  rw [hgen]

/-- Environment for the C5 witness: profile fetch succeeds with a
renderable profile, every other provider fails with a guarded shape. -/
def envPricesDown : ProviderEnv where
  now := "2026-10-12 09:05:00"
  fmpProfile := fun _ => .list [[("companyName", .str "Apple Inc"),
    ("mktCap", .num 3000000000000), ("description", .str "Consumer electronics")]]
  fmpIncome := fun _ => .httpError
  fmpBalance := fun _ => .list []
  fmpCashflow := fun _ => .nonList
  avDaily := fun _ => .httpError
  avIntraday := fun _ => .missingSeries
  yf := fun _ => .failure
  finnhubNews := fun _ => .httpError

/-- **C5 witness.** The amended statement at a concrete environment where
the profile call succeeds and all three price sources fail. -/
theorem procesar_ticker_prices_absent_witness :
    get_fmp_company_profile (envPricesDown.fmpProfile (normalizar_ticker "AAPL"))
      = some [("companyName", .str "Apple Inc"), ("mktCap", .num 3000000000000),
              ("description", .str "Consumer electronics")] ∧
    (∃ f : Facets, fetch_facets envPricesDown (normalizar_ticker "AAPL") = .ok f
      ∧ f.profile = some [("companyName", .str "Apple Inc"),
          ("mktCap", .num 3000000000000), ("description", .str "Consumer electronics")]
      ∧ f.daily_prices_av = none
      ∧ f.intraday_prices_av = none
      ∧ f.daily_prices_yf = none
      ∧ ∃ s, procesar_ticker envPricesDown "AAPL" "cliente-1" = some s) :=
  ⟨rfl,
   procesar_ticker_prices_absent_profile_present envPricesDown "AAPL" "cliente-1" _
     rfl ⟨3000000000000, rfl⟩ ⟨"Consumer electronics", rfl⟩
     ⟨none, rfl⟩ ⟨none, rfl⟩ ⟨none, rfl⟩ rfl rfl rfl rfl⟩

/-! ## Client data model (`database.py`) -/

/-- `database.Asset` (the optional quantity/price/date metadata is not used
by the core logic beyond ticker extraction and is omitted). -/
structure Asset where
  asset_id : Int
  portfolio_id : Int
  ticker : String
deriving DecidableEq, Repr

/-- `database.Portfolio`. -/
structure Portfolio where
  portfolio_id : Int
  user_id : String
  nombre : Option String
  descripcion : Option String
  assets : List Asset
deriving DecidableEq, Repr

/-- `database.Cliente`. -/
structure Cliente where
  user_id : String
  first_name : Option String
  last_name : Option String
  email : Option String
  portfolios : List Portfolio
deriving DecidableEq, Repr

/-- `Cliente.nombre_completo`: the truthy name parts joined by spaces, or
the `Usuario {user_id}` fallback. -/
def nombre_completo (c : Cliente) : String :=
  let parts := ([c.first_name, c.last_name].filterMap id).filter (fun s => s ≠ "")
  if parts.isEmpty then "Usuario " ++ c.user_id else String.intercalate " " parts

/-- `Cliente.get_todos_los_assets`: all assets of all portfolios, in
portfolio order. -/
def get_todos_los_assets (c : Cliente) : List Asset :=
  (c.portfolios.map Portfolio.assets).flatten

/-- `Cliente.get_todos_los_tickers`: the deduplicated raw tickers.  The
source builds a Python `set` and converts it to a list; set iteration order
is unspecified, so the embedding picks the first-occurrence order, which
preserves the membership and the cardinality the source observes. -/
def get_todos_los_tickers (c : Cliente) : List String :=
  ((get_todos_los_assets c).map Asset.ticker).dedup

/-! ## Per-client fan-out (`financial_api.procesar_cliente` / `main`) -/

/-- One entry of the `informes_generados` list built by
`procesar_cliente`: `{'ticker': ..., 'archivo': ..., 'contenido': ...}`. -/
structure Informe where
  ticker : String
  archivo : String
  contenido : String
deriving DecidableEq, Repr

/-- The two accumulator lists of `procesar_cliente`'s ticker loop. -/
structure ClienteRun where
  informes : List Informe
  errores : List String
deriving DecidableEq, Repr

/-- The ticker loop of `procesar_cliente` (lines 534–562): each raw ticker
is processed; a truthy report content is uploaded under
`f"{ticker}_analisis_financiero.md"` (note: the *raw* ticker); a successful
upload appends to `informes_generados`, any other outcome appends the raw
ticker to `errores`.  `up` is the upload oracle (`subir_informe_cliente`
catches all exceptions internally and returns a boolean). -/
def procesar_cliente_loop (env : ProviderEnv) (up : String → Bool)
    (cliente_id : String) : List String → ClienteRun
  | [] => ⟨[], []⟩
  | ticker :: rest =>
    let tailRun := procesar_cliente_loop env up cliente_id rest
    match procesar_ticker env ticker cliente_id with
    | some contenido =>
      if contenido ≠ "" then
        let archivo := ticker ++ "_analisis_financiero.md"
        if up archivo then
          ⟨⟨ticker, archivo, contenido⟩ :: tailRun.informes, tailRun.errores⟩
        else ⟨tailRun.informes, ticker :: tailRun.errores⟩
      else ⟨tailRun.informes, ticker :: tailRun.errores⟩
    | none => ⟨tailRun.informes, ticker :: tailRun.errores⟩

/-- The statistics dict returned by `procesar_cliente` (lines 592–601). -/
structure Stats where
  cliente_id : String
  cliente_nombre : String
  total_portfolios : Nat
  total_assets : Nat
  tickers_unicos : Nat
  informes_generados : Nat
  errores : Nat
  tickers_error : List String
deriving DecidableEq, Repr

/-- The consolidated report content (lines 565–572); built only when at
least one individual report succeeded.  Its upload outcome does not affect
the returned statistics. -/
def informe_consolidado (c : Cliente) (now : String) (informes : List Informe) : String :=
  "# Análisis Financiero Consolidado - Cliente: " ++ nombre_completo c ++ "\n"
    ++ "## User ID: " ++ c.user_id ++ "\n"
    ++ "## Portfolio: " ++ String.intercalate ", " (informes.map Informe.ticker) ++ "\n"
    ++ "## Generado el: " ++ now ++ "\n\n"
    ++ String.intercalate "\n\n<br><hr><br>\n\n" (informes.map Informe.contenido)

/-- `financial_api.procesar_cliente`: runs the ticker loop over the
deduplicated tickers and returns the run trace together with the
statistics dict.  (`crear_carpeta_cliente` and the consolidated-report
upload catch their own failures and do not influence either value.) -/
def procesar_cliente (env : ProviderEnv) (up : String → String → Bool)
    (cliente : Cliente) : ClienteRun × Stats :=
  let todos_los_assets := get_todos_los_assets cliente
  let tickers := get_todos_los_tickers cliente
  let run := procesar_cliente_loop env (up cliente.user_id) cliente.user_id tickers
  (run,
   { cliente_id := cliente.user_id
     cliente_nombre := nombre_completo cliente
     total_portfolios := cliente.portfolios.length
     total_assets := todos_los_assets.length
     tickers_unicos := tickers.length
     informes_generados := run.informes.length
     errores := run.errores.length
     tickers_error := run.errores })

/-- Result of `financial_api.main` on the production all-clients path. -/
inductive MainOutcome where
  | abortedApis
  | noActiveClients
  | completed (all_stats : List Stats)
deriving DecidableEq, Repr

/-- `financial_api.check_api_status`: `apis_ok` stays `True` only when the
Alpha Vantage, FMP and Finnhub sample calls all succeed. -/
def check_api_status (av_ok fmp_ok finnhub_ok : Bool) : Bool :=
  av_ok && fmp_ok && finnhub_ok

/-- `financial_api.main` with `cliente_id=None, modo_demo=False` (the
fan-out run): if the initial provider verification fails the function
prints `"No se puede continuar sin APIs funcionales. Abortando..."` and
returns before touching any client; otherwise clients without assets are
skipped and every other client is processed in order. -/
def main_all_clients (av_ok fmp_ok finnhub_ok : Bool) (env : ProviderEnv)
    (up : String → String → Bool) (clientes : List Cliente) : MainOutcome :=
  if !(check_api_status av_ok fmp_ok finnhub_ok) then .abortedApis
  else if clientes.isEmpty then .noActiveClients
  else .completed (clientes.filterMap fun c =>
    if (get_todos_los_assets c).isEmpty then none
    else some (procesar_cliente env up c).2)

theorem procesar_cliente_loop_length (env : ProviderEnv) (up : String → Bool)
    (cid : String) (l : List String) :
    (procesar_cliente_loop env up cid l).informes.length
      + (procesar_cliente_loop env up cid l).errores.length = l.length := by
  induction l with
  | nil => rfl
  | cons ticker rest ih =>
    simp only [procesar_cliente_loop]
    cases procesar_ticker env ticker cid with
    | none =>
      simp only [List.length_cons]
      omega
    | some contenido =>
      by_cases hc : contenido ≠ ""
      · simp only [if_pos hc]
        by_cases hu : up (ticker ++ "_analisis_financiero.md")
        · simp only [if_pos hu, List.length_cons]
          omega
        · simp only [if_neg hu, List.length_cons]
          omega
      · simp only [if_neg hc, List.length_cons]
        omega

/-- **C9.** Statistics accounting invariant of `procesar_cliente`: for
every client, upload oracle and provider environment,
`informes_generados + errores = tickers_unicos` — each deduplicated ticker
is counted exactly once, as a generated-and-uploaded report or as an error
(a generated report whose upload fails lands in `errores`). -/
theorem procesar_cliente_stats_invariant (env : ProviderEnv)
    (up : String → String → Bool) (cliente : Cliente) :
    (procesar_cliente env up cliente).2.informes_generados
      + (procesar_cliente env up cliente).2.errores
      = (procesar_cliente env up cliente).2.tickers_unicos :=
  procesar_cliente_loop_length env (up cliente.user_id) cliente.user_id
    (get_todos_los_tickers cliente)

theorem procesar_cliente_loop_covers (env : ProviderEnv) (up : String → Bool)
    (cid : String) (l : List String) (t : String) (ht : t ∈ l) :
    t ∈ (procesar_cliente_loop env up cid l).informes.map Informe.ticker
      ∨ t ∈ (procesar_cliente_loop env up cid l).errores := by
  induction l with
  | nil => cases ht
  | cons ticker rest ih =>
    simp only [procesar_cliente_loop]
    rcases List.mem_cons.mp ht with hhead | htail
    · subst hhead
      cases procesar_ticker env t cid with
      | none => exact Or.inr (List.mem_cons_self t _)
      | some contenido =>
        by_cases hc : contenido ≠ ""
        · simp only [if_pos hc]
          by_cases hu : up (t ++ "_analisis_financiero.md")
          · simp only [if_pos hu, List.map_cons]
            exact Or.inl (List.mem_cons_self t _)
          · simp only [if_neg hu]
            exact Or.inr (List.mem_cons_self t _)
        · simp only [if_neg hc]
          exact Or.inr (List.mem_cons_self t _)
    · rcases ih htail with hin | herr
      · cases procesar_ticker env ticker cid with
        | none => exact Or.inl hin
        | some contenido =>
          by_cases hc : contenido ≠ ""
          · simp only [if_pos hc]
            by_cases hu : up (ticker ++ "_analisis_financiero.md")
            · simp only [if_pos hu, List.map_cons]
              exact Or.inl (List.mem_cons_of_mem _ hin)
            · simp only [if_neg hu]
              exact Or.inl hin
          · simp only [if_neg hc]
            exact Or.inl hin
      · cases procesar_ticker env ticker cid with
        | none => exact Or.inr (List.mem_cons_of_mem _ herr)
        | some contenido =>
          by_cases hc : contenido ≠ ""
          · simp only [if_pos hc]
            by_cases hu : up (ticker ++ "_analisis_financiero.md")
            · simp only [if_pos hu]
              exact Or.inr herr
            · simp only [if_neg hu]
              exact Or.inr (List.mem_cons_of_mem _ herr)
          · simp only [if_neg hc]
            exact Or.inr (List.mem_cons_of_mem _ herr)

/-- **C4.** Failure isolation.  First conjunct (ticker level): whatever the
provider environment does — including the payload shapes whose exceptions
are only caught by the per-ticker `try/except` — every ticker of a client
is still attempted and lands in `informes_generados` or `errores`; no
outcome for one ticker removes a later ticker.  Second conjunct (client
level): `procesar_cliente` is total on every environment, so on the
production path every active client with assets contributes its statistics
entry to the final list, regardless of any other client's failures. -/
theorem fan_out_failure_isolation :
    (∀ (env : ProviderEnv) (up : String → String → Bool) (cliente : Cliente)
        (t : String), t ∈ get_todos_los_tickers cliente →
        t ∈ (procesar_cliente env up cliente).1.informes.map Informe.ticker
          ∨ t ∈ (procesar_cliente env up cliente).1.errores) ∧
    (∀ (av fmp fh : Bool) (env : ProviderEnv) (up : String → String → Bool)
        (clientes : List Cliente) (l : List Stats) (c : Cliente),
        main_all_clients av fmp fh env up clientes = .completed l →
        c ∈ clientes → (get_todos_los_assets c).isEmpty = false →
        ∃ s ∈ l, s.cliente_id = c.user_id) := by
  constructor
  · intro env up cliente t ht
    exact procesar_cliente_loop_covers env (up cliente.user_id) cliente.user_id _ t ht
  · intro av fmp fh env up clientes l c hmain hc hassets
    unfold main_all_clients at hmain
    by_cases hchk : check_api_status av fmp fh
    · rw [hchk] at hmain
      simp only [Bool.not_true, if_false] at hmain
      by_cases hcl : clientes.isEmpty
      · rw [if_pos hcl] at hmain
        cases hmain
      · rw [if_neg hcl] at hmain
        have hl := (MainOutcome.completed.injEq _ _).mp hmain
        subst hl
        refine ⟨(procesar_cliente env up c).2, ?_, rfl⟩
        apply List.mem_filterMap.mpr
        refine ⟨c, hc, ?_⟩
        rw [hassets]
        rfl
    · rw [Bool.not_eq_true] at hchk
      rw [hchk] at hmain
      cases hmain

/-- An environment where every provider call fails with a guarded shape
(every facet degrades to absent; reports are still rendered). -/
def envAllDown : ProviderEnv where
  now := "2026-10-12 10:00:00"
  fmpProfile := fun _ => .httpError
  fmpIncome := fun _ => .httpError
  fmpBalance := fun _ => .httpError
  fmpCashflow := fun _ => .httpError
  avDaily := fun _ => .httpError
  avIntraday := fun _ => .httpError
  yf := fun _ => .failure
  finnhubNews := fun _ => .httpError

/-- An upload oracle that always succeeds. -/
def upAlways : String → String → Bool := fun _ _ => true

/-- The demo client hard-coded in `financial_api.main` (`modo_demo`). -/
def clienteDemo : Cliente where
  user_id := "demo_user_001"
  first_name := some "Cliente"
  last_name := some "Demo"
  email := some "demo@example.com"
  portfolios := [⟨1, "demo_user_001", some "Portfolio Demo",
    some "Portfolio de prueba para demo",
    [⟨1, 1, "NVDA"⟩, ⟨2, 1, "GOOGL"⟩, ⟨3, 1, "AAPL"⟩]⟩]

/-- **C4 witness.** The isolation statement at the source's demo portfolio
and a fully failing provider environment. -/
theorem fan_out_failure_isolation_witness :
    ("NVDA" ∈ (procesar_cliente envAllDown upAlways clienteDemo).1.informes.map Informe.ticker
      ∨ "NVDA" ∈ (procesar_cliente envAllDown upAlways clienteDemo).1.errores) ∧
    (∃ s ∈ [(procesar_cliente envAllDown upAlways clienteDemo).2],
      s.cliente_id = "demo_user_001") :=
  ⟨fan_out_failure_isolation.1 envAllDown upAlways clienteDemo "NVDA" (by decide),
   fan_out_failure_isolation.2 true true true envAllDown upAlways [clienteDemo]
     [(procesar_cliente envAllDown upAlways clienteDemo).2] clienteDemo rfl
     (List.mem_singleton.mpr rfl) (by decide)⟩

theorem generate_markdown_report_heading (now ticker : String)
    (profile : Option PDict) (a b c d e f g : Option DF) (s : String)
    (h : generate_markdown_report now ticker profile a b c d e f g = .ok s) :
    ∃ r, s = "# Análisis Financiero de " ++ ticker ++ "\n\n" ++ r := by
  unfold generate_markdown_report at h
  cases hp : profile_section profile with
  | error e2 =>
    rw [hp] at h
    exact absurd h (by simp [Except.bind])
  | ok ps =>
    rw [hp] at h
    cases hn : news_section ticker g with
    | error e2 =>
      rw [hn] at h
      exact absurd h (by simp [Except.bind])
    | ok ns =>
      rw [hn] at h
      simp only [Except.bind] at h
      exact ⟨_, (Except.ok.injEq _ _ ▸ h).symm⟩

theorem procesar_ticker_heading (env : ProviderEnv) (ticker cid s : String)
    (h : procesar_ticker env ticker cid = some s) :
    ∃ r, s = "# Análisis Financiero de " ++ normalizar_ticker ticker ++ "\n\n" ++ r := by
  have h2 : (match (fetch_facets env (normalizar_ticker ticker)).bind fun f =>
      generate_markdown_report env.now (normalizar_ticker ticker) f.profile
        f.daily_prices_av f.intraday_prices_av f.income f.balance f.cash_flow
        f.daily_prices_yf f.finnhub_news with
    | Except.ok r => some r
    | Except.error _ => none) = some s := h
  clear h
  rename' h2 => h
  cases hf : fetch_facets env (normalizar_ticker ticker) with
  | error e =>
    rw [hf] at h
    exact absurd h (by simp [Except.bind])
  | ok fac =>
    rw [hf] at h
    simp only [Except.bind] at h
    cases hg : generate_markdown_report env.now (normalizar_ticker ticker) fac.profile
        fac.daily_prices_av fac.intraday_prices_av fac.income fac.balance
        fac.cash_flow fac.daily_prices_yf fac.finnhub_news with
    | error e =>
      rw [hg] at h
      cases h
    | ok r =>
      rw [hg] at h
      cases h
      exact generate_markdown_report_heading _ _ _ _ _ _ _ _ _ _ _ hg

theorem procesar_cliente_loop_informes_shape (env : ProviderEnv)
    (up : String → Bool) (cid : String) (l : List String) (inf : Informe)
    (h : inf ∈ (procesar_cliente_loop env up cid l).informes) :
    inf.archivo = inf.ticker ++ "_analisis_financiero.md" ∧
    inf.ticker ∈ l ∧
    procesar_ticker env inf.ticker cid = some inf.contenido := by
  induction l with
  | nil => cases h
  | cons ticker rest ih =>
    revert h
    simp only [procesar_cliente_loop]
    cases hpt : procesar_ticker env ticker cid with
    | none =>
      intro h
      rcases ih h with ⟨h1, h2, h3⟩
      exact ⟨h1, List.mem_cons_of_mem _ h2, h3⟩
    | some contenido =>
      show inf ∈ (if contenido ≠ "" then
          (if up (ticker ++ "_analisis_financiero.md") = true then
            ClienteRun.mk
              (⟨ticker, ticker ++ "_analisis_financiero.md", contenido⟩
                :: (procesar_cliente_loop env up cid rest).informes)
              (procesar_cliente_loop env up cid rest).errores
          else ClienteRun.mk (procesar_cliente_loop env up cid rest).informes
            (ticker :: (procesar_cliente_loop env up cid rest).errores))
        else ClienteRun.mk (procesar_cliente_loop env up cid rest).informes
          (ticker :: (procesar_cliente_loop env up cid rest).errores)).informes →
        inf.archivo = inf.ticker ++ "_analisis_financiero.md" ∧
        inf.ticker ∈ ticker :: rest ∧
        procesar_ticker env inf.ticker cid = some inf.contenido
      by_cases hc : contenido ≠ ""
      · rw [if_pos hc]
        by_cases hu : up (ticker ++ "_analisis_financiero.md")
        · rw [if_pos hu]
          intro h
          rcases List.mem_cons.mp h with heq | htail
          · subst heq
            exact ⟨rfl, List.mem_cons_self _ _, hpt⟩
          · rcases ih htail with ⟨h1, h2, h3⟩
            exact ⟨h1, List.mem_cons_of_mem _ h2, h3⟩
        · rw [if_neg hu]
          intro h
          rcases ih h with ⟨h1, h2, h3⟩
          exact ⟨h1, List.mem_cons_of_mem _ h2, h3⟩
      · rw [if_neg hc]
        intro h
        rcases ih h with ⟨h1, h2, h3⟩
        exact ⟨h1, List.mem_cons_of_mem _ h2, h3⟩

/-- **C10.** Raw-ticker naming: every individual report a client run
uploads is filed under the *raw* (pre-normalization) portfolio ticker
(`f"{ticker}_analisis_financiero.md"`), while the report body's title
heading names the *normalized* ticker; distinct raw tickers always map to
distinct filenames, and deduplication happens over raw tickers (before
normalization), so two raw spellings of the same instrument are processed
separately. -/
theorem informes_use_raw_ticker_filenames :
    (∀ (env : ProviderEnv) (up : String → String → Bool) (cliente : Cliente)
        (inf : Informe), inf ∈ (procesar_cliente env up cliente).1.informes →
        inf.archivo = inf.ticker ++ "_analisis_financiero.md" ∧
        inf.ticker ∈ get_todos_los_tickers cliente ∧
        ∃ r, inf.contenido
          = "# Análisis Financiero de " ++ normalizar_ticker inf.ticker ++ "\n\n" ++ r) ∧
    (∀ (cliente : Cliente) (a : Asset), a ∈ get_todos_los_assets cliente →
        a.ticker ∈ get_todos_los_tickers cliente) ∧
    (∀ t1 t2 : String, t1 ≠ t2 →
        t1 ++ "_analisis_financiero.md" ≠ t2 ++ "_analisis_financiero.md") := by
  refine ⟨?_, ?_, ?_⟩
  · intro env up cliente inf h
    rcases procesar_cliente_loop_informes_shape env (up cliente.user_id)
      cliente.user_id (get_todos_los_tickers cliente) inf h with ⟨h1, h2, h3⟩
    exact ⟨h1, h2, procesar_ticker_heading env inf.ticker cliente.user_id inf.contenido h3⟩
  · intro cliente a ha
    exact List.mem_dedup.mpr (List.mem_map_of_mem Asset.ticker ha)
  · intro t1 t2 hne heq
    apply hne
    apply String.ext
    have hd := congrArg String.data heq
    rw [String.data_append, String.data_append] at hd
    exact List.append_cancel_right hd

/-- Client holding the same instrument under two raw spellings, `NVD.F`
and `NVDA`, which normalize to the same symbol. -/
def clienteNV : Cliente where
  user_id := "user-nv"
  first_name := some "Nora"
  last_name := none
  email := none
  portfolios := [⟨1, "user-nv", some "P1", none, [⟨1, 1, "NVD.F"⟩]⟩,
                 ⟨2, "user-nv", some "P2", none, [⟨2, 2, "NVDA"⟩]⟩]

set_option maxRecDepth 8000 in
/-- **C10 witness.** The naming statement at a concrete run: the first
uploaded report of `clienteNV` is filed under its raw ticker, and the two
raw spellings `NVD.F`/`NVDA` (same normalized symbol `NVDA`) are both
enumerated, with distinct filenames. -/
theorem informes_use_raw_ticker_filenames_witness :
    (((procesar_cliente envAllDown upAlways clienteNV).1.informes.headD
        ⟨"", "", ""⟩).archivo
      = ((procesar_cliente envAllDown upAlways clienteNV).1.informes.headD
        ⟨"", "", ""⟩).ticker ++ "_analisis_financiero.md" ∧
     ((procesar_cliente envAllDown upAlways clienteNV).1.informes.headD
        ⟨"", "", ""⟩).ticker ∈ get_todos_los_tickers clienteNV ∧
     ∃ r, ((procesar_cliente envAllDown upAlways clienteNV).1.informes.headD
        ⟨"", "", ""⟩).contenido
       = "# Análisis Financiero de "
         ++ normalizar_ticker ((procesar_cliente envAllDown upAlways clienteNV).1.informes.headD
              ⟨"", "", ""⟩).ticker ++ "\n\n" ++ r) ∧
    "NVD.F" ∈ get_todos_los_tickers clienteNV ∧
    "NVDA" ∈ get_todos_los_tickers clienteNV ∧
    "NVD.F" ++ "_analisis_financiero.md" ≠ "NVDA" ++ "_analisis_financiero.md" :=
  ⟨informes_use_raw_ticker_filenames.1 envAllDown upAlways clienteNV _ (by decide),
   informes_use_raw_ticker_filenames.2.1 clienteNV ⟨1, 1, "NVD.F"⟩ (by decide),
   informes_use_raw_ticker_filenames.2.1 clienteNV ⟨2, 2, "NVDA"⟩ (by decide),
   informes_use_raw_ticker_filenames.2.2 "NVD.F" "NVDA" (by decide)⟩

/-- **C1 counterexample.** With FMP failing its sample request (the other
two providers fine) and one active client holding assets, the fan-out run
*aborts before processing any client*: `main` prints
`"No se puede continuar sin APIs funcionales. Abortando..."` and returns.
The claim says the run proceeds with only a warning. -/
theorem main_aborts_on_failed_verification :
    check_api_status true false true = false ∧
    (get_todos_los_assets clienteDemo).isEmpty = false ∧
    main_all_clients true false true envAllDown upAlways [clienteDemo]
      = .abortedApis := by
  exact ⟨rfl, rfl, rfl⟩

/-- **C1 (corrected/amended).** The fan-out run aborts (processing no
client) exactly when the initial provider verification fails, i.e. when at
least one of the three sample requests fails; it proceeds past the
verification only when all three providers pass. -/
theorem main_aborts_iff_verification_fails (av fmp fh : Bool)
    (env : ProviderEnv) (up : String → String → Bool) (clientes : List Cliente) :
    main_all_clients av fmp fh env up clientes = .abortedApis
      ↔ check_api_status av fmp fh = false := by
  unfold main_all_clients
  by_cases hc : check_api_status av fmp fh = false
  · rw [hc]
    simp
  · have hc2 : check_api_status av fmp fh = true := by
      cases hb : check_api_status av fmp fh
      · exact absurd hb hc
      · rfl
    rw [hc2]
    simp only [Bool.not_true, Bool.false_eq_true, if_false]
    constructor
    · intro h
      split at h <;> cases h
    · intro h
      exact Bool.noConfusion h

/-! ## Video locator (`api_youtube.py`) -/

/-- Python `str.split()` on a character list: whitespace-separated words,
empty runs discarded.  `acc` holds the current word reversed. -/
def splitWSAux : List Char → List Char → List (List Char)
  | [], acc => if acc.isEmpty then [] else [acc.reverse]
  | c :: rest, acc =>
    if pyIsSpaceChar c then
      if acc.isEmpty then splitWSAux rest [] else acc.reverse :: splitWSAux rest []
    else splitWSAux rest (c :: acc)

/-- `api_youtube.limpiar_texto_busqueda`: NFKD-normalize (the Unicode
decomposition is external; it is passed in as the oracle `nfkd`), keep
alphanumeric/whitespace/`.`/`-` characters (`Char.isAlphanum` models the
ASCII fragment of Python's `str.isalnum`), lower-case, and re-join the
whitespace-split words with single spaces. -/
def limpiar_texto_busqueda (nfkd : String → String) (texto : String) : String :=
  if texto = "" then ""
  else
    let normalizado := nfkd texto
    let filtrado := normalizado.data.filter
      (fun ch => ch.isAlphanum || pyIsSpaceChar ch || ch = '.' || ch = '-')
    let lowered := filtrado.map pyToLowerChar
    String.intercalate " " ((splitWSAux lowered []).map (fun w => (⟨w⟩ : String)))

/-- Python substring test `pat in s` on character lists. -/
def isInfixB (pat : List Char) : List Char → Bool
  | [] => pat.isEmpty
  | c :: rest => pat.isPrefixOf (c :: rest) || isInfixB pat rest

/-- One entry of the YouTube search response (`id.videoId` /
`snippet.title`). -/
structure SearchItem where
  videoId : String
  title : String
deriving DecidableEq, Repr

/-- A YouTube search response as the source branches on it: a failure
(an `error` payload in the response, an `HttpError`, or any other
exception — all three handlers return `None`) or the ordered item list
(most recent first, `order="date"`). -/
inductive SearchResp where
  | failure
  | results (items : List SearchItem)

def videoUrl (videoId : String) : String :=
  "https://www.youtube.com/watch?v=" ++ videoId

/-- The loop condition of `buscar_video_reciente_en_canal`:
`if not criterio or criterio in titulo_limpio`. -/
def matchesCriterio (nfkd : String → String) (criterio : String)
    (item : SearchItem) : Bool :=
  criterio = "" || isInfixB criterio.data (limpiar_texto_busqueda nfkd item.title).data

/-- `max(1, min(max_results, 50))`. -/
def clampMaxResults (n : Int) : Int := max 1 (min n 50)

/-- `api_youtube.buscar_video_reciente_en_canal`: one date-ordered search
request; failure or an empty item list yields `None`; otherwise the first
item whose cleaned title contains the cleaned query wins, and if no item
matches, the most recent item (`items[0]`) is returned as a fallback. -/
def buscar_video_reciente_en_canal (nfkd : String → String)
    (search : String → Int → SearchResp) (query : String)
    (max_results : Int := 5) : Option String :=
  match search query (clampMaxResults max_results) with
  | .failure => none
  | .results [] => none
  | .results (first :: rest) =>
    let criterio := limpiar_texto_busqueda nfkd query
    match (first :: rest).find? (matchesCriterio nfkd criterio) with
    | some item => some (videoUrl item.videoId)
    | none => some (videoUrl first.videoId)

/-- `api_youtube.buscar_video_reciente_con_fallback`: tries the queries in
order, *skipping falsy (empty) queries without issuing a search*, and
returns the first hit; `None` only when the list is exhausted. -/
def buscar_video_reciente_con_fallback (nfkd : String → String)
    (search : String → Int → SearchResp) : List String → Option String
  | [] => none
  | consulta :: rest =>
    if consulta = "" then buscar_video_reciente_con_fallback nfkd search rest
    else
      match buscar_video_reciente_en_canal nfkd search consulta with
      | some url => some url
      | none => buscar_video_reciente_con_fallback nfkd search rest

/-- **C6.** The video locator returns the URL of the *first* candidate (in
the provider's most-recent-first order) whose cleaned title contains the
cleaned query as a substring, whenever such a candidate exists — it does
not simply take the most recent item. -/
theorem buscar_video_returns_first_title_match
    (nfkd : String → String) (search : String → Int → SearchResp)
    (query : String) (max_results : Int) (items : List SearchItem)
    (item : SearchItem)
    (hresp : search query (clampMaxResults max_results) = .results items)
    (hfind : items.find? (matchesCriterio nfkd (limpiar_texto_busqueda nfkd query))
      = some item) :
    buscar_video_reciente_en_canal nfkd search query max_results
      = some (videoUrl item.videoId) := by
  unfold buscar_video_reciente_en_canal
  rw [hresp]
  cases items with
  | nil => exact absurd hfind (by simp)
  | cons f r =>
    show (match (f :: r).find?
        (matchesCriterio nfkd (limpiar_texto_busqueda nfkd query)) with
      | some it => some (videoUrl it.videoId)
      | none => some (videoUrl f.videoId)) = some (videoUrl item.videoId)
    rw [hfind]

/-- Mock provider for the C6 witness: the most recent item does not match
the query by title, the second (older) one does. -/
def searchPreMercado : String → Int → SearchResp := fun _ _ =>
  .results [⟨"vidRes", "Resumen general de la jornada"⟩,
            ⟨"vidPre", "PRE MERCADO analisis del 10 de octubre"⟩]

/-- **C6 witness.** With query `PRE MERCADO` and a result set containing a
more-recent non-matching item and an older title-matching item, the
locator returns the title-matching item's URL, not the most recent one. -/
theorem buscar_video_returns_first_title_match_witness :
    searchPreMercado "PRE MERCADO" (clampMaxResults 5)
      = .results [⟨"vidRes", "Resumen general de la jornada"⟩,
                  ⟨"vidPre", "PRE MERCADO analisis del 10 de octubre"⟩] ∧
    [(⟨"vidRes", "Resumen general de la jornada"⟩ : SearchItem),
     ⟨"vidPre", "PRE MERCADO analisis del 10 de octubre"⟩].find?
        (matchesCriterio id (limpiar_texto_busqueda id "PRE MERCADO"))
      = some ⟨"vidPre", "PRE MERCADO analisis del 10 de octubre"⟩ ∧
    buscar_video_reciente_en_canal id searchPreMercado "PRE MERCADO" 5
      = some (videoUrl "vidPre") :=
  ⟨rfl, by decide,
   buscar_video_returns_first_title_match id searchPreMercado "PRE MERCADO" 5
     [⟨"vidRes", "Resumen general de la jornada"⟩,
      ⟨"vidPre", "PRE MERCADO analisis del 10 de octubre"⟩]
     ⟨"vidPre", "PRE MERCADO analisis del 10 de octubre"⟩ rfl (by decide)⟩

theorem fallback_cons_empty (nfkd : String → String)
    (search : String → Int → SearchResp) (rest : List String) :
    buscar_video_reciente_con_fallback nfkd search ("" :: rest)
      = buscar_video_reciente_con_fallback nfkd search rest := by
  simp only [buscar_video_reciente_con_fallback, if_pos rfl, if_true]

theorem fallback_cons_some (nfkd : String → String)
    (search : String → Int → SearchResp) (c : String) (rest : List String)
    (url : String) (hc : ¬ c = "")
    (hb : buscar_video_reciente_en_canal nfkd search c = some url) :
    buscar_video_reciente_con_fallback nfkd search (c :: rest) = some url := by
  simp only [buscar_video_reciente_con_fallback, if_neg hc, hb]

theorem fallback_cons_none (nfkd : String → String)
    (search : String → Int → SearchResp) (c : String) (rest : List String)
    (hc : ¬ c = "")
    (hb : buscar_video_reciente_en_canal nfkd search c = none) :
    buscar_video_reciente_con_fallback nfkd search (c :: rest)
      = buscar_video_reciente_con_fallback nfkd search rest := by
  simp only [buscar_video_reciente_con_fallback, if_neg hc, hb]

/-- **C7 counterexample.** The fallback search does *not* return `None`
only when every query yields no match: an empty query is skipped without
being issued, so with query list `[""]` and a provider that would return a
result for the empty query (the single-query locator returns a URL for
it), the fallback still returns `None`. -/
theorem fallback_skips_empty_query :
    buscar_video_reciente_en_canal id (fun _ _ => .results [⟨"vid1", "Hola mundo"⟩]) ""
      = some (videoUrl "vid1") ∧
    buscar_video_reciente_con_fallback id (fun _ _ => .results [⟨"vid1", "Hola mundo"⟩]) [""]
      = none :=
  ⟨rfl, rfl⟩

/-- **C7 (corrected/amended).** The fallback search tries the *non-empty*
queries in order (empty queries are skipped without issuing a search) and
stops at the first success: for `[Q1, Q2]` with both non-empty, Q1 failing
and Q2 matching, the result is Q2's URL; and it returns `None` exactly
when every non-empty query yields no match. -/
theorem fallback_queries_in_order (nfkd : String → String)
    (search : String → Int → SearchResp) :
    (∀ consultas : List String,
      (buscar_video_reciente_con_fallback nfkd search consultas = none ↔
        ∀ q ∈ consultas, q ≠ "" →
          buscar_video_reciente_en_canal nfkd search q = none)) ∧
    (∀ q1 q2 url : String, q1 ≠ "" → q2 ≠ "" →
      buscar_video_reciente_en_canal nfkd search q1 = none →
      buscar_video_reciente_en_canal nfkd search q2 = some url →
      buscar_video_reciente_con_fallback nfkd search [q1, q2] = some url) := by
  constructor
  · intro consultas
    induction consultas with
    | nil => simp [buscar_video_reciente_con_fallback]
    | cons c rest ih =>
      by_cases hc : c = ""
      · subst hc
        rw [fallback_cons_empty, ih]
        constructor
        · intro h q hq hqne
          rcases List.mem_cons.mp hq with heq | hq2
          · exact absurd heq hqne
          · exact h q hq2 hqne
        · intro h q hq
          exact h q (List.mem_cons_of_mem _ hq)
      · cases hb : buscar_video_reciente_en_canal nfkd search c with
        | some url =>
          rw [fallback_cons_some nfkd search c rest url hc hb]
          constructor
          · intro h
            exact Option.noConfusion h
          · intro h
            rw [h c (List.mem_cons_self _ _) hc] at hb
            exact Option.noConfusion hb
        | none =>
          rw [fallback_cons_none nfkd search c rest hc hb, ih]
          constructor
          · intro h q hq hqne
            rcases List.mem_cons.mp hq with heq | hq2
            · rw [heq]
              exact hb
            · exact h q hq2 hqne
          · intro h q hq hqne
            exact h q (List.mem_cons_of_mem _ hq) hqne
  · intro q1 q2 url h1 h2 hb1 hb2
    rw [fallback_cons_none nfkd search q1 [q2] h1 hb1]
    exact fallback_cons_some nfkd search q2 [] url h2 hb2

/-- Mock provider for the C7 witness: only the second query finds items. -/
def searchSoloQ2 : String → Int → SearchResp := fun q _ =>
  if q = "vision semanal" then .results [⟨"v2", "VISION semanal de los mercados"⟩]
  else .results []

/-- **C7 witness.** The amended statement at a concrete pair of queries
where the first yields nothing and the second matches. -/
theorem fallback_queries_in_order_witness :
    ("cierre semanal" : String) ≠ "" ∧ ("vision semanal" : String) ≠ "" ∧
    buscar_video_reciente_en_canal id searchSoloQ2 "cierre semanal" = none ∧
    buscar_video_reciente_en_canal id searchSoloQ2 "vision semanal"
      = some (videoUrl "v2") ∧
    buscar_video_reciente_con_fallback id searchSoloQ2
      ["cierre semanal", "vision semanal"] = some (videoUrl "v2") :=
  ⟨by decide, by decide, rfl, by decide,
   (fallback_queries_in_order id searchSoloQ2).2 "cierre semanal" "vision semanal"
     (videoUrl "v2") (by decide) (by decide) rfl (by decide)⟩
